import Mathlib

/-!
# Blow-detection finite-state machine — verification development

Shallow embedding of the per-frame blow-detection state machine of the
birthday-celebration app. The repository contains two variants of the
tick loop:

* the hysteresis + cooldown variant (the `update` callback of the App
  component bundled in `src/services/geminiService.ts`), embedded in
  namespace `Hyst`;
* the single-frame variant (`src/App.tsx`), embedded in namespace `Simple`.

JavaScript timestamps (`Date.now()`) are modelled as natural-number
milliseconds; the signed difference `now - lastStateTime` is taken in `ℤ`.
The float `progress` and the frequency-bin averages are modelled in `ℚ`
(all values appearing in the source's comparisons are exact at these
magnitudes, so the rational model agrees with IEEE doubles on every
comparison the code performs).
-/

/-- The experience states, `src` `types.ts` / the FSM of the App component. -/
inductive ExperienceState where
  | IDLE
  | LISTENING
  | COUNTDOWN
  | MORPH_CAKE
  | CANDLES_LIT
  | BLOW_OUT
  | GIFT_OPEN
deriving DecidableEq, Repr

/-- A JavaScript numeric duration: finite milliseconds or `Infinity`. -/
inductive JsDuration where
  | fin (d : Nat)
  | inf
deriving DecidableEq, Repr

namespace Hyst

/-- The `DURATIONS` record of the hysteresis variant
(`geminiService.ts`-bundled App): a partial map; states not present in the
record (IDLE, LISTENING) look up to `undefined`. -/
def DURATIONS : ExperienceState → Option JsDuration
  | .COUNTDOWN   => some (.fin 3000)
  | .MORPH_CAKE  => some (.fin 4000)
  | .CANDLES_LIT => some .inf
  | .BLOW_OUT    => some (.fin 2000)
  | .GIFT_OPEN   => some .inf
  | _            => none

/-- `DURATIONS[state] || 0`: every value present in the record is truthy
(finite positives and `Infinity`), and `undefined || 0` is `0`. -/
def lookupDuration (s : ExperienceState) : JsDuration :=
  (DURATIONS s).getD (.fin 0)

/-- The timeout if-chain of `update`:
`COUNTDOWN→MORPH_CAKE`, `MORPH_CAKE→CANDLES_LIT`, `BLOW_OUT→GIFT_OPEN`;
any other state falls through the chain with no `setState` call. -/
def timedNext : ExperienceState → ExperienceState
  | .COUNTDOWN  => .MORPH_CAKE
  | .MORPH_CAKE => .CANDLES_LIT
  | .BLOW_OUT   => .GIFT_OPEN
  | s           => s

/-- The mutable state owned by the App component that the `update`
callback reads and writes: the React `state`/`progress` values and the
refs `lastStateTimeRef`, `blowHitFramesRef`, `lastTriggerAtRef`, plus the
mic flags (`micActive`, whether `analyserRef.current` is non-null). -/
structure Machine where
  state         : ExperienceState
  progress      : ℚ
  lastStateTime : Nat
  blowHitFrames : Nat
  lastTriggerAt : Nat
  micActive     : Bool
  hasAnalyser   : Bool
deriving DecidableEq, Repr

/-- `lowFreqBins = 15`. -/
def lowFreqBins : Nat := 15

/-- `blowThreshold = 55`. -/
def blowThreshold : ℚ := 55

/-- `cooldownMs = 900`. -/
def cooldownMs : Nat := 900

/-- `requiredFrames = 6`. -/
def requiredFrames : Nat := 6

/-- `dataArray.slice(0, lowFreqBins).reduce((a, b) => a + b, 0) / lowFreqBins`
(the source names this average `lowFreqSum`). -/
def lowFreqSum (frame : List Nat) : ℚ :=
  (((frame.take lowFreqBins).sum : Nat) : ℚ) / (lowFreqBins : ℚ)

/-- `dataArray.reduce((a, b) => a + b, 0) / dataArray.length`. -/
def totalAverage (frame : List Nat) : ℚ :=
  ((frame.sum : Nat) : ℚ) / (frame.length : ℚ)

/-- `const isHit = (lowFreqSum > blowThreshold) || (totalAverage > blowThreshold)`. -/
def isHit (frame : List Nat) : Bool :=
  decide (blowThreshold < lowFreqSum frame) ||
    decide (blowThreshold < totalAverage frame)

/-- The hysteresis counter update:
`if (isHit) blowHitFramesRef.current += 1;
 else blowHitFramesRef.current = Math.max(0, blowHitFramesRef.current - 1);`
(`Nat` subtraction is exactly the floor at 0). -/
def hitCounterStep (hit : Bool) (n : Nat) : Nat :=
  if hit then n + 1 else n - 1

/-- `const elapsed = now - lastStateTimeRef.current`. -/
def elapsed (m : Machine) (now : Nat) : Int :=
  (now : Int) - (m.lastStateTime : Int)

/-- Phase 1 of a tick of `update` (the duration/timeout section):
`duration = DURATIONS[state] || 0;
 if (duration !== Infinity && elapsed > duration) { ...if-chain...;
   lastStateTimeRef.current = now; setProgress(0); blowHitFramesRef.current = 0; }
 else if (duration !== Infinity) setProgress(Math.min(elapsed / duration, 1));` -/
def timeoutStep (m : Machine) (now : Nat) : Machine :=
  match lookupDuration m.state with
  | .inf => m
  | .fin d =>
      if (d : Int) < elapsed m now then
        { m with state := timedNext m.state, lastStateTime := now,
                 progress := 0, blowHitFrames := 0 }
      else
        { m with progress := min ((elapsed m now : ℚ) / (d : ℚ)) 1 }

/-- Phase 2 of a tick of `update` (the audio section), guarded by
`analyserRef.current && micActive`. `origState` is the `state` value
captured by the effect closure (React's `setState` inside phase 1 does
not change the local `state` variable within the same tick), while the
refs written by phase 1 are read with their new values. -/
def audioStep (origState : ExperienceState) (m : Machine) (now : Nat)
    (frame : List Nat) : Machine :=
  if m.hasAnalyser && m.micActive then
    let bhf := hitCounterStep (isHit frame) m.blowHitFrames
    let m1 := { m with blowHitFrames := bhf }
    if ((cooldownMs : Int) < (now : Int) - (m.lastTriggerAt : Int)) ∧
        requiredFrames ≤ bhf then
      if origState = .LISTENING then
        { m1 with state := .COUNTDOWN, lastStateTime := now,
                  lastTriggerAt := now, blowHitFrames := 0 }
      else if origState = .CANDLES_LIT then
        { m1 with state := .BLOW_OUT, lastStateTime := now,
                  lastTriggerAt := now, blowHitFrames := 0 }
      else m1
    else m1
  else m

/-- One tick of the `update` callback of the hysteresis variant:
the timeout section followed by the audio section, the latter testing the
closure-captured state. -/
def update (m : Machine) (now : Nat) (frame : List Nat) : Machine :=
  audioStep m.state (timeoutStep m now) now frame

/-- Iterated ticks: each entry is the `Date.now()` value and the frame the
analyser would deliver at that tick. -/
def runTicks (m : Machine) : List (Nat × List Nat) → Machine
  | [] => m
  | (now, frame) :: rest => runTicks (update m now frame) rest

/-- The `catch` branch of `initMic`:
`setMicActive(false); setState('LISTENING');` (the analyser ref is not
touched). -/
def initMicFail (m : Machine) : Machine :=
  { m with micActive := false, state := .LISTENING }

end Hyst

namespace Simple

/-- The `DURATIONS` record of `src/App.tsx` (same entries as the
hysteresis variant). -/
def DURATIONS : ExperienceState → Option JsDuration
  | .COUNTDOWN   => some (.fin 3000)
  | .MORPH_CAKE  => some (.fin 4000)
  | .CANDLES_LIT => some .inf
  | .BLOW_OUT    => some (.fin 2000)
  | .GIFT_OPEN   => some .inf
  | _            => none

/-- `DURATIONS[state] || 0` for the `src/App.tsx` variant. -/
def lookupDuration (s : ExperienceState) : JsDuration :=
  (DURATIONS s).getD (.fin 0)

/-- State of the `src/App.tsx` App component: no hit counter and no
last-trigger timestamp exist in this variant. -/
structure Machine where
  state         : ExperienceState
  progress      : ℚ
  lastStateTime : Nat
  micActive     : Bool
  hasAnalyser   : Bool
deriving DecidableEq, Repr

/-- `dataArray.slice(0, 15).reduce((a, b) => a + b, 0) / 15` of `src/App.tsx`. -/
def lowFreqSum (frame : List Nat) : ℚ :=
  (((frame.take 15).sum : Nat) : ℚ) / (15 : ℚ)

/-- `dataArray.reduce((a, b) => a + b) / dataArray.length` of `src/App.tsx`
(the analyser always delivers `frequencyBinCount = 256` bins, so the
no-initial-value `reduce` is evaluated on a non-empty array). -/
def totalAverage (frame : List Nat) : ℚ :=
  ((frame.sum : Nat) : ℚ) / (frame.length : ℚ)

/-- `blowThreshold = 55` of `src/App.tsx`. -/
def blowThreshold : ℚ := 55

/-- The timeout if-chain of `src/App.tsx` (identical to the hysteresis
variant's): states outside the chain fall through with no `setState`. -/
def timedNext : ExperienceState → ExperienceState
  | .COUNTDOWN  => .MORPH_CAKE
  | .MORPH_CAKE => .CANDLES_LIT
  | .BLOW_OUT   => .GIFT_OPEN
  | s           => s

/-- `const elapsed = now - lastStateTimeRef.current` of `src/App.tsx`. -/
def elapsed (m : Machine) (now : Nat) : Int :=
  (now : Int) - (m.lastStateTime : Int)

/-- The timeout section of the `src/App.tsx` `update` callback (identical
in shape to the hysteresis variant's, minus the counter reset — no counter
exists here). -/
def timeoutStep (m : Machine) (now : Nat) : Machine :=
  match lookupDuration m.state with
  | .inf => m
  | .fin d =>
      if (d : Int) < elapsed m now then
        { m with state := timedNext m.state, lastStateTime := now,
                 progress := 0 }
      else
        { m with progress := min ((elapsed m now : ℚ) / (d : ℚ)) 1 }

/-- The audio section of the `src/App.tsx` `update` callback: a
single-frame threshold test
(`if (lowFreqSum > blowThreshold || totalAverage > blowThreshold)`) with
no run-length counter and no cooldown; the state test uses the
closure-captured `state`. -/
def audioStep (origState : ExperienceState) (m : Machine) (now : Nat)
    (frame : List Nat) : Machine :=
  if m.hasAnalyser && m.micActive then
    if blowThreshold < lowFreqSum frame ∨ blowThreshold < totalAverage frame then
      if origState = .LISTENING then
        { m with state := .COUNTDOWN, lastStateTime := now }
      else if origState = .CANDLES_LIT then
        { m with state := .BLOW_OUT, lastStateTime := now }
      else m
    else m
  else m

/-- One tick of the `update` callback of `src/App.tsx`: the timeout
section followed by the audio section. -/
def update (m : Machine) (now : Nat) (frame : List Nat) : Machine :=
  audioStep m.state (timeoutStep m now) now frame

end Simple

/-! ## Concrete inputs used in closed evaluations -/

/-- A frame of uniformly loud bins (all at the byte maximum). -/
def hitFrame : List Nat := List.replicate 15 255

/-- A frame of silent bins. -/
def missFrame : List Nat := List.replicate 15 0

/-- A machine sitting in COUNTDOWN since time 0, microphone off. -/
def mCountdown : Hyst.Machine := ⟨.COUNTDOWN, 0, 0, 0, 0, false, false⟩

/-- A machine in LISTENING since time 984 with a live microphone and the
cooldown long expired. -/
def mListening : Hyst.Machine := ⟨.LISTENING, 0, 984, 0, 0, true, true⟩

/-- A machine in CANDLES_LIT since time 0 with a live microphone. -/
def mCandles : Hyst.Machine := ⟨.CANDLES_LIT, 0, 0, 0, 0, true, true⟩

/-- A machine in CANDLES_LIT holding a non-zero progress value and a
counter one short of the trigger threshold. -/
def mCandlesHalf : Hyst.Machine := ⟨.CANDLES_LIT, 1/2, 0, 5, 0, true, true⟩

/-- A machine in GIFT_OPEN with a live microphone. -/
def mGift : Hyst.Machine := ⟨.GIFT_OPEN, 0, 0, 0, 0, true, true⟩

/-- A `src/App.tsx` machine in LISTENING with a live microphone. -/
def sListening : Simple.Machine := ⟨.LISTENING, 0, 0, true, true⟩

/-- A `src/App.tsx` machine in CANDLES_LIT with a live microphone. -/
def sCandles : Simple.Machine := ⟨.CANDLES_LIT, 0, 0, true, true⟩

namespace Hyst

/-- The audio section never writes `micActive`. -/
lemma audioStep_micActive (o : ExperienceState) (m : Machine) (now : Nat)
    (f : List Nat) : (audioStep o m now f).micActive = m.micActive := by
  unfold audioStep
  dsimp only
  split
  · split
    · split
      · rfl
      · split <;> rfl
    · rfl
  · rfl

/-- The audio section never writes `progress`. -/
lemma audioStep_progress (o : ExperienceState) (m : Machine) (now : Nat)
    (f : List Nat) : (audioStep o m now f).progress = m.progress := by
  unfold audioStep
  dsimp only
  split
  · split
    · split
      · rfl
      · split <;> rfl
    · rfl
  · rfl

/-- In a tick whose captured state is neither `LISTENING` nor
`CANDLES_LIT`, the audio section never changes the pending state. -/
lemma audioStep_state (o : ExperienceState) (m : Machine) (now : Nat)
    (f : List Nat) (h1 : o ≠ .LISTENING) (h2 : o ≠ .CANDLES_LIT) :
    (audioStep o m now f).state = m.state := by
  unfold audioStep
  dsimp only
  rw [if_neg h1, if_neg h2, ite_self]
  split
  · rfl
  · rfl

/-- With the microphone inactive, the audio section is skipped entirely. -/
lemma audioStep_of_mic_off (o : ExperienceState) (m : Machine) (now : Nat)
    (f : List Nat) (h : m.micActive = false) : audioStep o m now f = m := by
  unfold audioStep
  simp [h]

/-- The timeout section never writes `micActive`. -/
lemma timeoutStep_micActive (m : Machine) (now : Nat) :
    (timeoutStep m now).micActive = m.micActive := by
  unfold timeoutStep
  split
  · rfl
  · split <;> rfl

/-- The timeout section never writes `lastTriggerAt`. -/
lemma timeoutStep_lastTriggerAt (m : Machine) (now : Nat) :
    (timeoutStep m now).lastTriggerAt = m.lastTriggerAt := by
  unfold timeoutStep
  split
  · rfl
  · split <;> rfl

/-- The timeout section never writes `hasAnalyser`. -/
lemma timeoutStep_hasAnalyser (m : Machine) (now : Nat) :
    (timeoutStep m now).hasAnalyser = m.hasAnalyser := by
  unfold timeoutStep
  split
  · rfl
  · split <;> rfl

/-- The state after the timeout section is the old state or its timed
successor. -/
lemma timeoutStep_state (m : Machine) (now : Nat) :
    (timeoutStep m now).state = m.state ∨
      (timeoutStep m now).state = timedNext m.state := by
  unfold timeoutStep
  split
  · exact Or.inl rfl
  · split
    · exact Or.inr rfl
    · exact Or.inl rfl

/-- When the looked-up duration is finite and elapsed time exceeds it, the
timeout section performs the transition-and-reset write. -/
lemma timeoutStep_fires (m : Machine) (now : Nat) (d : Nat)
    (hd : lookupDuration m.state = .fin d)
    (h : (d : ℤ) < elapsed m now) :
    timeoutStep m now =
      { m with state := timedNext m.state, lastStateTime := now,
               progress := 0, blowHitFrames := 0 } := by
  unfold timeoutStep
  rw [hd]
  exact if_pos h

/-- When the looked-up duration is finite and elapsed time does not exceed
it, the timeout section only writes the progress value. -/
lemma timeoutStep_holds (m : Machine) (now : Nat) (d : Nat)
    (hd : lookupDuration m.state = .fin d)
    (h : ¬ (d : ℤ) < elapsed m now) :
    timeoutStep m now =
      { m with progress := min ((elapsed m now : ℚ) / (d : ℚ)) 1 } := by
  unfold timeoutStep
  rw [hd]
  exact if_neg h

/-- When the looked-up duration is `Infinity`, the timeout section is a
no-op. -/
lemma timeoutStep_inf (m : Machine) (now : Nat)
    (hd : lookupDuration m.state = .inf) :
    timeoutStep m now = m := by
  unfold timeoutStep
  rw [hd]

/-- A firing LISTENING trigger: the audio section writes the transition to
COUNTDOWN and resets the counter and both timestamps. -/
lemma audioStep_trigger_LISTENING (m : Machine) (now : Nat) (f : List Nat)
    (han : m.hasAnalyser = true) (hmic : m.micActive = true)
    (hcool : (cooldownMs : ℤ) < (now : ℤ) - (m.lastTriggerAt : ℤ))
    (hreq : requiredFrames ≤ hitCounterStep (isHit f) m.blowHitFrames) :
    audioStep .LISTENING m now f =
      { m with state := .COUNTDOWN, lastStateTime := now,
               lastTriggerAt := now, blowHitFrames := 0 } := by
  unfold audioStep
  dsimp only
  rw [han, hmic]
  rw [if_pos (by exact ⟨hcool, hreq⟩ : _ ∧ _)]
  rfl

/-- A firing CANDLES_LIT trigger: the audio section writes the transition
to BLOW_OUT and resets the counter and both timestamps. -/
lemma audioStep_trigger_CANDLES (m : Machine) (now : Nat) (f : List Nat)
    (han : m.hasAnalyser = true) (hmic : m.micActive = true)
    (hcool : (cooldownMs : ℤ) < (now : ℤ) - (m.lastTriggerAt : ℤ))
    (hreq : requiredFrames ≤ hitCounterStep (isHit f) m.blowHitFrames) :
    audioStep .CANDLES_LIT m now f =
      { m with state := .BLOW_OUT, lastStateTime := now,
               lastTriggerAt := now, blowHitFrames := 0 } := by
  unfold audioStep
  dsimp only
  rw [han, hmic]
  rw [if_pos (by exact ⟨hcool, hreq⟩ : _ ∧ _)]
  rfl

/-- When the trigger gate does not pass, the audio section only updates the
hysteresis counter. -/
lemma audioStep_no_trigger (o : ExperienceState) (m : Machine) (now : Nat)
    (f : List Nat) (han : m.hasAnalyser = true) (hmic : m.micActive = true)
    (h : ¬ (((cooldownMs : ℤ) < (now : ℤ) - (m.lastTriggerAt : ℤ)) ∧
            requiredFrames ≤ hitCounterStep (isHit f) m.blowHitFrames)) :
    audioStep o m now f =
      { m with blowHitFrames := hitCounterStep (isHit f) m.blowHitFrames } := by
  unfold audioStep
  dsimp only
  rw [han, hmic]
  rw [if_neg h]
  rfl

/-- The only states whose looked-up duration is finite positive are the
three timed states. -/
lemma timed_state_cases (s : ExperienceState) (d : Nat)
    (hd : lookupDuration s = .fin d) (hpos : 0 < d) :
    s = .COUNTDOWN ∨ s = .MORPH_CAKE ∨ s = .BLOW_OUT := by
  cases s <;> simp_all [lookupDuration, DURATIONS]

/-- The timed successor of a timed state differs from it. -/
lemma timedNext_ne (s : ExperienceState)
    (h : s = .COUNTDOWN ∨ s = .MORPH_CAKE ∨ s = .BLOW_OUT) :
    timedNext s ≠ s := by
  rcases h with h | h | h <;> subst h <;> simp [timedNext]

/-- The audio section is skipped when either mic flag is down. -/
lemma audioStep_off (o : ExperienceState) (m : Machine) (now : Nat)
    (f : List Nat) (h : m.hasAnalyser = false ∨ m.micActive = false) :
    audioStep o m now f = m := by
  unfold audioStep
  rcases h with h | h <;> rw [h] <;> simp

/-- One counter step grows the counter by at most one. -/
lemma hitCounterStep_le (b : Bool) (n : Nat) : hitCounterStep b n ≤ n + 1 := by
  unfold hitCounterStep
  cases b
  · simp
    omega
  · simp

/-- A machine that is in LISTENING with the microphone inactive stays in
LISTENING with the microphone inactive, over any sequence of ticks. -/
lemma run_listening_mic_off (m : Machine) (ticks : List (Nat × List Nat))
    (hs : m.state = .LISTENING) (hm : m.micActive = false) :
    (runTicks m ticks).state = .LISTENING ∧
      (runTicks m ticks).micActive = false := by
  induction ticks generalizing m with
  | nil => exact ⟨hs, hm⟩
  | cons t rest ih =>
      obtain ⟨now, f⟩ := t
      have hm1 : (timeoutStep m now).micActive = false := by
        rw [timeoutStep_micActive]; exact hm
      have hstep : update m now f = timeoutStep m now := by
        unfold update
        exact audioStep_off _ _ _ _ (Or.inr hm1)
      apply ih
      · rw [hstep]
        rcases timeoutStep_state m now with h | h
        · rw [h, hs]
        · rw [h, hs]; rfl
      · rw [hstep]; exact hm1

/-- GIFT_OPEN is absorbing for a single tick. -/
lemma update_gift_open (m : Machine) (now : Nat) (f : List Nat)
    (hs : m.state = .GIFT_OPEN) :
    (update m now f).state = .GIFT_OPEN := by
  have ht : timeoutStep m now = m := by
    apply timeoutStep_inf
    rw [hs]; rfl
  unfold update
  rw [ht]
  rw [audioStep_state m.state m now f (by rw [hs]; decide) (by rw [hs]; decide)]
  exact hs

/-- When the timeout fires from a timed state, the whole tick lands in the
timed successor. -/
lemma update_timeout_fires (m : Machine) (now : Nat) (f : List Nat) (d : Nat)
    (hd : lookupDuration m.state = .fin d) (hpos : 0 < d)
    (hlt : (d : ℤ) < elapsed m now) :
    (update m now f).state = timedNext m.state := by
  have hcase := timed_state_cases m.state d hd hpos
  have h1 : m.state ≠ .LISTENING := by
    rcases hcase with h | h | h <;> rw [h] <;> decide
  have h2 : m.state ≠ .CANDLES_LIT := by
    rcases hcase with h | h | h <;> rw [h] <;> decide
  unfold update
  rw [timeoutStep_fires m now d hd hlt, audioStep_state _ _ _ _ h1 h2]

/-- One audio section grows the counter by at most one, whatever else it
does. -/
lemma audioStep_blowHitFrames_le (o : ExperienceState) (m : Machine)
    (now : Nat) (f : List Nat) :
    (audioStep o m now f).blowHitFrames ≤ m.blowHitFrames + 1 := by
  unfold audioStep
  dsimp only
  split
  · split
    · split
      · simp
      · split
        · simp
        · exact hitCounterStep_le _ _
    · exact hitCounterStep_le _ _
  · omega

/-- With a counter too low to reach the threshold even after one hit, the
trigger gate cannot pass, so the audio section never changes the state. -/
lemma audioStep_state_low_counter (o : ExperienceState) (m : Machine)
    (now : Nat) (f : List Nat) (h : m.blowHitFrames + 1 < requiredFrames) :
    (audioStep o m now f).state = m.state := by
  unfold audioStep
  dsimp only
  split
  · have hb := hitCounterStep_le (isHit f) m.blowHitFrames
    rw [if_neg ?hgate]
    case hgate => rintro ⟨-, hreq⟩; omega
  · rfl

/-- The all-loud frame is a hit. -/
lemma isHit_hitFrame : isHit hitFrame = true := by
  norm_num [isHit, lowFreqSum, totalAverage, lowFreqBins, blowThreshold,
    hitFrame, List.replicate, List.take]

end Hyst

namespace Simple

/-- The `src/App.tsx` timeout section never writes `hasAnalyser`. -/
lemma timeoutStep_keeps_hasAnalyser (m : Machine) (now : Nat) :
    (timeoutStep m now).hasAnalyser = m.hasAnalyser := by
  unfold timeoutStep
  split
  · rfl
  · split <;> rfl

/-- The `src/App.tsx` timeout section never writes `micActive`. -/
lemma timeoutStep_keeps_micActive (m : Machine) (now : Nat) :
    (timeoutStep m now).micActive = m.micActive := by
  unfold timeoutStep
  split
  · rfl
  · split <;> rfl

/-- The low-frequency mean of the all-loud frame is over the threshold. -/
lemma lowFreqSum_hitFrame : blowThreshold < lowFreqSum hitFrame := by
  norm_num [lowFreqSum, blowThreshold, hitFrame, List.replicate, List.take]

end Simple

/-- C4: The timed states auto-advance in the fixed sequence with the fixed
durations: COUNTDOWN moves to MORPH_CAKE once its elapsed time exceeds
3000 ms, MORPH_CAKE to CANDLES_LIT after 4000 ms, BLOW_OUT to GIFT_OPEN
after 2000 ms; CANDLES_LIT and GIFT_OPEN have unbounded duration and are
never advanced by the timeout section. -/
theorem hyst_timed_sequence :
    (∀ (m : Hyst.Machine) (now : Nat) (frame : List Nat),
        m.state = .COUNTDOWN → (3000 : ℤ) < Hyst.elapsed m now →
        (Hyst.update m now frame).state = .MORPH_CAKE) ∧
    (∀ (m : Hyst.Machine) (now : Nat) (frame : List Nat),
        m.state = .MORPH_CAKE → (4000 : ℤ) < Hyst.elapsed m now →
        (Hyst.update m now frame).state = .CANDLES_LIT) ∧
    (∀ (m : Hyst.Machine) (now : Nat) (frame : List Nat),
        m.state = .BLOW_OUT → (2000 : ℤ) < Hyst.elapsed m now →
        (Hyst.update m now frame).state = .GIFT_OPEN) ∧
    (∀ (m : Hyst.Machine) (now : Nat),
        m.state = .CANDLES_LIT ∨ m.state = .GIFT_OPEN →
        Hyst.timeoutStep m now = m) := by
  refine ⟨?_, ?_, ?_, ?_⟩
  · intro m now frame hs hlt
    have hd : Hyst.lookupDuration m.state = .fin 3000 := by rw [hs]; rfl
    have h := Hyst.update_timeout_fires m now frame 3000 hd (by norm_num)
      (by exact_mod_cast hlt)
    rw [h, hs]
    rfl
  · intro m now frame hs hlt
    have hd : Hyst.lookupDuration m.state = .fin 4000 := by rw [hs]; rfl
    have h := Hyst.update_timeout_fires m now frame 4000 hd (by norm_num)
      (by exact_mod_cast hlt)
    rw [h, hs]
    rfl
  · intro m now frame hs hlt
    have hd : Hyst.lookupDuration m.state = .fin 2000 := by rw [hs]; rfl
    have h := Hyst.update_timeout_fires m now frame 2000 hd (by norm_num)
      (by exact_mod_cast hlt)
    rw [h, hs]
    rfl
  · intro m now h
    rcases h with h | h <;> exact Hyst.timeoutStep_inf m now (by rw [h]; rfl)

/-- Witness for C4 at concrete inputs: a COUNTDOWN machine 3001 ms into the
state advances to MORPH_CAKE, and the timeout section leaves a GIFT_OPEN
machine untouched. -/
theorem hyst_timed_sequence_witness :
    (Hyst.update mCountdown 3001 []).state = .MORPH_CAKE ∧
    Hyst.timeoutStep mGift 500 = mGift :=
  ⟨hyst_timed_sequence.1 mCountdown 3001 [] rfl (by decide),
   hyst_timed_sequence.2.2.2 mGift 500 (Or.inr rfl)⟩

/-- C5: a frame of byte-valued bins is classified as a hit exactly when
the mean of its first 15 bins exceeds 55 or the mean over all bins
exceeds 55. -/
theorem hyst_hit_test_iff :
    ∀ frame : List Nat, (∀ b ∈ frame, b ≤ 255) →
      (Hyst.isHit frame = true ↔
        55 < Hyst.lowFreqSum frame ∨ 55 < Hyst.totalAverage frame) := by
  intro frame _
  simp [Hyst.isHit, Hyst.blowThreshold]

/-- Witness for C5 at the concrete all-loud frame. -/
theorem hyst_hit_test_iff_witness :
    (∀ b ∈ hitFrame, b ≤ 255) ∧
    (Hyst.isHit hitFrame = true ↔
      55 < Hyst.lowFreqSum hitFrame ∨ 55 < Hyst.totalAverage hitFrame) :=
  ⟨by decide, hyst_hit_test_iff hitFrame (by decide)⟩

/-- C6: the hysteresis counter gains one per hit frame, loses exactly one
per miss frame floored at 0, and from 0 the sequence H,H,H,M,H,H,H,H of
counter updates yields 1,2,3,2,3,4,5,6 — reaching the threshold 6 on the
8th frame; the same values are produced by full ticks of `update` in
CANDLES_LIT (taken inside the cooldown window so the trigger gate stays
closed and the raw counter is observable). -/
theorem hyst_hit_counter_hysteresis :
    (∀ n : Nat, Hyst.hitCounterStep true n = n + 1) ∧
    (∀ n : Nat, ((Hyst.hitCounterStep false n : Nat) : ℤ) = max ((n : ℤ) - 1) 0) ∧
    ((List.scanl (fun n b => Hyst.hitCounterStep b n) 0
        [true, true, true, false, true, true, true, true]).tail
      = [1, 2, 3, 2, 3, 4, 5, 6]) ∧
    ((Hyst.runTicks mCandles [(100, hitFrame)]).blowHitFrames = 1 ∧
     (Hyst.runTicks mCandles [(100, hitFrame), (200, hitFrame)]).blowHitFrames = 2 ∧
     (Hyst.runTicks mCandles
        [(100, hitFrame), (200, hitFrame), (300, hitFrame)]).blowHitFrames = 3 ∧
     (Hyst.runTicks mCandles
        [(100, hitFrame), (200, hitFrame), (300, hitFrame),
         (400, missFrame)]).blowHitFrames = 2 ∧
     (Hyst.runTicks mCandles
        [(100, hitFrame), (200, hitFrame), (300, hitFrame), (400, missFrame),
         (500, hitFrame)]).blowHitFrames = 3 ∧
     (Hyst.runTicks mCandles
        [(100, hitFrame), (200, hitFrame), (300, hitFrame), (400, missFrame),
         (500, hitFrame), (600, hitFrame)]).blowHitFrames = 4 ∧
     (Hyst.runTicks mCandles
        [(100, hitFrame), (200, hitFrame), (300, hitFrame), (400, missFrame),
         (500, hitFrame), (600, hitFrame), (700, hitFrame)]).blowHitFrames = 5 ∧
     (Hyst.runTicks mCandles
        [(100, hitFrame), (200, hitFrame), (300, hitFrame), (400, missFrame),
         (500, hitFrame), (600, hitFrame), (700, hitFrame),
         (800, hitFrame)]).blowHitFrames = Hyst.requiredFrames ∧
     (Hyst.runTicks mCandles
        [(100, hitFrame), (200, hitFrame), (300, hitFrame), (400, missFrame),
         (500, hitFrame), (600, hitFrame), (700, hitFrame),
         (800, hitFrame)]).state = .CANDLES_LIT) := by
  refine ⟨fun n => rfl, ?_, by decide, ?_⟩
  · intro n
    cases n with
    | zero => decide
    | succ k =>
        simp only [Hyst.hitCounterStep, if_neg (by decide : ¬ false = true),
          Nat.succ_sub_one]
        omega
  · have e1 : Hyst.update mCandles 100 hitFrame
        = ⟨.CANDLES_LIT, 0, 0, 1, 0, true, true⟩ := by
      norm_num [Hyst.update, Hyst.timeoutStep, Hyst.audioStep, Hyst.elapsed,
        Hyst.lookupDuration, Hyst.DURATIONS, Hyst.isHit, Hyst.lowFreqSum,
        Hyst.totalAverage, Hyst.lowFreqBins, Hyst.blowThreshold,
        Hyst.hitCounterStep, Hyst.cooldownMs, Hyst.requiredFrames, mCandles,
        hitFrame, List.replicate, List.take]
    have e2 : Hyst.update ⟨.CANDLES_LIT, 0, 0, 1, 0, true, true⟩ 200 hitFrame
        = ⟨.CANDLES_LIT, 0, 0, 2, 0, true, true⟩ := by
      norm_num [Hyst.update, Hyst.timeoutStep, Hyst.audioStep, Hyst.elapsed,
        Hyst.lookupDuration, Hyst.DURATIONS, Hyst.isHit, Hyst.lowFreqSum,
        Hyst.totalAverage, Hyst.lowFreqBins, Hyst.blowThreshold,
        Hyst.hitCounterStep, Hyst.cooldownMs, Hyst.requiredFrames,
        hitFrame, List.replicate, List.take]
    have e3 : Hyst.update ⟨.CANDLES_LIT, 0, 0, 2, 0, true, true⟩ 300 hitFrame
        = ⟨.CANDLES_LIT, 0, 0, 3, 0, true, true⟩ := by
      norm_num [Hyst.update, Hyst.timeoutStep, Hyst.audioStep, Hyst.elapsed,
        Hyst.lookupDuration, Hyst.DURATIONS, Hyst.isHit, Hyst.lowFreqSum,
        Hyst.totalAverage, Hyst.lowFreqBins, Hyst.blowThreshold,
        Hyst.hitCounterStep, Hyst.cooldownMs, Hyst.requiredFrames,
        hitFrame, List.replicate, List.take]
    have e4 : Hyst.update ⟨.CANDLES_LIT, 0, 0, 3, 0, true, true⟩ 400 missFrame
        = ⟨.CANDLES_LIT, 0, 0, 2, 0, true, true⟩ := by
      norm_num [Hyst.update, Hyst.timeoutStep, Hyst.audioStep, Hyst.elapsed,
        Hyst.lookupDuration, Hyst.DURATIONS, Hyst.isHit, Hyst.lowFreqSum,
        Hyst.totalAverage, Hyst.lowFreqBins, Hyst.blowThreshold,
        Hyst.hitCounterStep, Hyst.cooldownMs, Hyst.requiredFrames,
        missFrame, List.replicate, List.take]
    have e5 : Hyst.update ⟨.CANDLES_LIT, 0, 0, 2, 0, true, true⟩ 500 hitFrame
        = ⟨.CANDLES_LIT, 0, 0, 3, 0, true, true⟩ := by
      norm_num [Hyst.update, Hyst.timeoutStep, Hyst.audioStep, Hyst.elapsed,
        Hyst.lookupDuration, Hyst.DURATIONS, Hyst.isHit, Hyst.lowFreqSum,
        Hyst.totalAverage, Hyst.lowFreqBins, Hyst.blowThreshold,
        Hyst.hitCounterStep, Hyst.cooldownMs, Hyst.requiredFrames,
        hitFrame, List.replicate, List.take]
    have e6 : Hyst.update ⟨.CANDLES_LIT, 0, 0, 3, 0, true, true⟩ 600 hitFrame
        = ⟨.CANDLES_LIT, 0, 0, 4, 0, true, true⟩ := by
      norm_num [Hyst.update, Hyst.timeoutStep, Hyst.audioStep, Hyst.elapsed,
        Hyst.lookupDuration, Hyst.DURATIONS, Hyst.isHit, Hyst.lowFreqSum,
        Hyst.totalAverage, Hyst.lowFreqBins, Hyst.blowThreshold,
        Hyst.hitCounterStep, Hyst.cooldownMs, Hyst.requiredFrames,
        hitFrame, List.replicate, List.take]
    have e7 : Hyst.update ⟨.CANDLES_LIT, 0, 0, 4, 0, true, true⟩ 700 hitFrame
        = ⟨.CANDLES_LIT, 0, 0, 5, 0, true, true⟩ := by
      norm_num [Hyst.update, Hyst.timeoutStep, Hyst.audioStep, Hyst.elapsed,
        Hyst.lookupDuration, Hyst.DURATIONS, Hyst.isHit, Hyst.lowFreqSum,
        Hyst.totalAverage, Hyst.lowFreqBins, Hyst.blowThreshold,
        Hyst.hitCounterStep, Hyst.cooldownMs, Hyst.requiredFrames,
        hitFrame, List.replicate, List.take]
    have e8 : Hyst.update ⟨.CANDLES_LIT, 0, 0, 5, 0, true, true⟩ 800 hitFrame
        = ⟨.CANDLES_LIT, 0, 0, 6, 0, true, true⟩ := by
      norm_num [Hyst.update, Hyst.timeoutStep, Hyst.audioStep, Hyst.elapsed,
        Hyst.lookupDuration, Hyst.DURATIONS, Hyst.isHit, Hyst.lowFreqSum,
        Hyst.totalAverage, Hyst.lowFreqBins, Hyst.blowThreshold,
        Hyst.hitCounterStep, Hyst.cooldownMs, Hyst.requiredFrames,
        hitFrame, List.replicate, List.take]
    simp [Hyst.runTicks, e1, e2, e3, e4, e5, e6, e7, e8, Hyst.requiredFrames]

/-- C7: after a failed microphone acquisition the machine is in LISTENING
with audio-gating disabled, and over any sequence of subsequent ticks (the
embedded tick is a total function, so no tick can throw) it remains in
LISTENING with the microphone still inactive. -/
theorem hyst_mic_failure_safe :
    ∀ (m : Hyst.Machine) (ticks : List (Nat × List Nat)),
      (Hyst.runTicks (Hyst.initMicFail m) ticks).state = .LISTENING ∧
      (Hyst.runTicks (Hyst.initMicFail m) ticks).micActive = false := by
  intro m ticks
  exact Hyst.run_listening_mic_off (Hyst.initMicFail m) ticks rfl rfl

/-- C8: outside LISTENING and CANDLES_LIT the audio section never changes
the state (a tick does exactly what the timeout section alone does to the
state), and GIFT_OPEN is terminal over any sequence of ticks. -/
theorem hyst_audio_gated_states :
    (∀ (m : Hyst.Machine) (now : Nat) (frame : List Nat),
        m.state ≠ .LISTENING → m.state ≠ .CANDLES_LIT →
        (Hyst.update m now frame).state = (Hyst.timeoutStep m now).state) ∧
    (∀ (m : Hyst.Machine) (ticks : List (Nat × List Nat)),
        m.state = .GIFT_OPEN → (Hyst.runTicks m ticks).state = .GIFT_OPEN) := by
  constructor
  · intro m now frame h1 h2
    unfold Hyst.update
    exact Hyst.audioStep_state m.state _ now frame h1 h2
  · intro m ticks hs
    induction ticks generalizing m with
    | nil => exact hs
    | cons t rest ih =>
        obtain ⟨now, f⟩ := t
        simp only [Hyst.runTicks]
        exact ih _ (Hyst.update_gift_open m now f hs)

/-- Witness for C8 at concrete inputs: a COUNTDOWN tick with a loud frame
changes the state exactly as the timeout section does, and a GIFT_OPEN
machine survives a loud tick. -/
theorem hyst_audio_gated_states_witness :
    (Hyst.update mCountdown 100 hitFrame).state
      = (Hyst.timeoutStep mCountdown 100).state ∧
    (Hyst.runTicks mGift [(1000, hitFrame)]).state = .GIFT_OPEN :=
  ⟨hyst_audio_gated_states.1 mCountdown 100 hitFrame (by decide) (by decide),
   hyst_audio_gated_states.2 mGift [(1000, hitFrame)] rfl⟩

/-- C9: IDLE and LISTENING are absent from the duration table, so
`DURATIONS[state] || 0` yields 0 there; on any tick with positive elapsed
time the timeout branch runs without changing the state, resetting the
elapsed-time origin, progress, and the hit counter, and consequently the
counter is at most 1 when the trigger gate is evaluated (and the tick
leaves the state unchanged). -/
theorem hyst_zero_duration_states :
    ∀ (m : Hyst.Machine) (now : Nat) (frame : List Nat),
      m.state = .IDLE ∨ m.state = .LISTENING →
      Hyst.lookupDuration m.state = .fin 0 ∧
      ((0 : ℤ) < Hyst.elapsed m now →
        (Hyst.timeoutStep m now).state = m.state ∧
        (Hyst.timeoutStep m now).lastStateTime = now ∧
        (Hyst.timeoutStep m now).progress = 0 ∧
        (Hyst.timeoutStep m now).blowHitFrames = 0 ∧
        (Hyst.update m now frame).state = m.state ∧
        (Hyst.update m now frame).blowHitFrames ≤ 1) := by
  intro m now frame hs
  have hd : Hyst.lookupDuration m.state = .fin 0 := by
    rcases hs with h | h <;> rw [h] <;> rfl
  refine ⟨hd, fun hpos => ?_⟩
  have hlt : ((0 : ℕ) : ℤ) < Hyst.elapsed m now := by exact_mod_cast hpos
  have ht := Hyst.timeoutStep_fires m now 0 hd hlt
  have hnext : Hyst.timedNext m.state = m.state := by
    rcases hs with h | h <;> rw [h] <;> rfl
  have h0 : (Hyst.timeoutStep m now).blowHitFrames = 0 := by rw [ht]
  refine ⟨by rw [ht]; exact hnext, by rw [ht], by rw [ht], h0, ?_, ?_⟩
  · unfold Hyst.update
    rw [Hyst.audioStep_state_low_counter m.state _ now frame (by rw [h0]; decide)]
    rw [ht]
    exact hnext
  · have hb := Hyst.audioStep_blowHitFrames_le m.state
      (Hyst.timeoutStep m now) now frame
    rw [h0] at hb
    exact hb

/-- Witness for C9 at a concrete LISTENING machine 16 ms into the state,
with a loud frame arriving. -/
theorem hyst_zero_duration_states_witness :
    Hyst.lookupDuration mListening.state = .fin 0 ∧
    ((Hyst.timeoutStep mListening 1000).state = mListening.state ∧
     (Hyst.timeoutStep mListening 1000).lastStateTime = 1000 ∧
     (Hyst.timeoutStep mListening 1000).progress = 0 ∧
     (Hyst.timeoutStep mListening 1000).blowHitFrames = 0 ∧
     (Hyst.update mListening 1000 hitFrame).state = mListening.state ∧
     (Hyst.update mListening 1000 hitFrame).blowHitFrames ≤ 1) :=
  ⟨(hyst_zero_duration_states mListening 1000 hitFrame (Or.inr rfl)).1,
   (hyst_zero_duration_states mListening 1000 hitFrame (Or.inr rfl)).2
     (by decide)⟩

/-- C2 counterexample: an audio-triggered transition (CANDLES_LIT to
BLOW_OUT at time 1000 with the cooldown expired and the counter reaching
the threshold) changes the state but leaves the prior progress value 1/2
in place instead of resetting it to 0. -/
theorem hyst_audio_trigger_keeps_progress :
    (Hyst.update mCandlesHalf 1000 hitFrame).state ≠ mCandlesHalf.state ∧
    (Hyst.update mCandlesHalf 1000 hitFrame).state = .BLOW_OUT ∧
    (Hyst.update mCandlesHalf 1000 hitFrame).progress ≠ 0 ∧
    (Hyst.update mCandlesHalf 1000 hitFrame).progress = 1/2 := by
  have htr : Hyst.update mCandlesHalf 1000 hitFrame
      = ⟨.BLOW_OUT, 1/2, 1000, 0, 1000, true, true⟩ := by
    unfold Hyst.update
    rw [Hyst.timeoutStep_inf mCandlesHalf 1000 rfl]
    rw [show mCandlesHalf.state = ExperienceState.CANDLES_LIT from rfl]
    rw [Hyst.audioStep_trigger_CANDLES mCandlesHalf 1000 hitFrame rfl rfl
      (by decide) (by rw [Hyst.isHit_hitFrame]; decide)]
    rfl
  rw [htr]
  refine ⟨by decide, rfl, by norm_num, rfl⟩

/-- C2 amended: a duration-timeout transition resets the elapsed-time
origin, progress, and the hit counter together; an audio-triggered
transition resets the elapsed-time origin and the hit counter and records
the trigger time, but does not write progress — progress keeps whatever
value the timeout section of the same tick left. -/
theorem hyst_transition_resets :
    (∀ (m : Hyst.Machine) (now : Nat) (d : Nat),
        Hyst.lookupDuration m.state = .fin d →
        (d : ℤ) < Hyst.elapsed m now →
        (Hyst.timeoutStep m now).lastStateTime = now ∧
        (Hyst.timeoutStep m now).progress = 0 ∧
        (Hyst.timeoutStep m now).blowHitFrames = 0) ∧
    (∀ (m : Hyst.Machine) (now : Nat) (frame : List Nat),
        m.hasAnalyser = true → m.micActive = true →
        m.state = .LISTENING ∨ m.state = .CANDLES_LIT →
        (Hyst.cooldownMs : ℤ) < (now : ℤ) - (m.lastTriggerAt : ℤ) →
        Hyst.requiredFrames ≤ Hyst.hitCounterStep (Hyst.isHit frame)
          (Hyst.timeoutStep m now).blowHitFrames →
        (Hyst.update m now frame).lastStateTime = now ∧
        (Hyst.update m now frame).lastTriggerAt = now ∧
        (Hyst.update m now frame).blowHitFrames = 0 ∧
        (Hyst.update m now frame).progress = (Hyst.timeoutStep m now).progress ∧
        (Hyst.update m now frame).state ≠ m.state) := by
  constructor
  · intro m now d hd hlt
    rw [Hyst.timeoutStep_fires m now d hd hlt]
    exact ⟨rfl, rfl, rfl⟩
  · intro m now frame han hmic hs hcool hreq
    have hanM : (Hyst.timeoutStep m now).hasAnalyser = true := by
      rw [Hyst.timeoutStep_hasAnalyser]; exact han
    have hmicM : (Hyst.timeoutStep m now).micActive = true := by
      rw [Hyst.timeoutStep_micActive]; exact hmic
    have hcoolM : (Hyst.cooldownMs : ℤ)
        < (now : ℤ) - ((Hyst.timeoutStep m now).lastTriggerAt : ℤ) := by
      rw [Hyst.timeoutStep_lastTriggerAt]; exact hcool
    rcases hs with h | h
    · have htr := Hyst.audioStep_trigger_LISTENING (Hyst.timeoutStep m now)
        now frame hanM hmicM hcoolM hreq
      unfold Hyst.update
      rw [h, htr]
      refine ⟨rfl, rfl, rfl, rfl, ?_⟩
      simp
    · have htr := Hyst.audioStep_trigger_CANDLES (Hyst.timeoutStep m now)
        now frame hanM hmicM hcoolM hreq
      unfold Hyst.update
      rw [h, htr]
      refine ⟨rfl, rfl, rfl, rfl, ?_⟩
      simp

/-- Witness for the amended C2: the COUNTDOWN timeout at 3001 ms resets
all three values, and the concrete CANDLES_LIT trigger resets origin and
counter while keeping the progress the timeout section left. -/
theorem hyst_transition_resets_witness :
    ((Hyst.timeoutStep mCountdown 3001).lastStateTime = 3001 ∧
     (Hyst.timeoutStep mCountdown 3001).progress = 0 ∧
     (Hyst.timeoutStep mCountdown 3001).blowHitFrames = 0) ∧
    ((Hyst.update mCandlesHalf 1000 hitFrame).lastStateTime = 1000 ∧
     (Hyst.update mCandlesHalf 1000 hitFrame).lastTriggerAt = 1000 ∧
     (Hyst.update mCandlesHalf 1000 hitFrame).blowHitFrames = 0 ∧
     (Hyst.update mCandlesHalf 1000 hitFrame).progress
       = (Hyst.timeoutStep mCandlesHalf 1000).progress ∧
     (Hyst.update mCandlesHalf 1000 hitFrame).state ≠ mCandlesHalf.state) :=
  ⟨hyst_transition_resets.1 mCountdown 3001 3000 rfl (by decide),
   hyst_transition_resets.2 mCandlesHalf 1000 hitFrame rfl rfl (Or.inr rfl)
     (by decide) (by rw [Hyst.isHit_hitFrame]; decide)⟩

/-- C3 counterexample: a COUNTDOWN run ticked at 2999 ms and then 3001 ms
transitions to MORPH_CAKE without progress ever reaching 1 (its values in
the run are 2999/3000 and then 0). -/
theorem hyst_progress_skips_one :
    (Hyst.update mCountdown 2999 []).state = .COUNTDOWN ∧
    (Hyst.update mCountdown 2999 []).progress = 2999/3000 ∧
    (Hyst.update mCountdown 2999 []).progress ≠ 1 ∧
    (Hyst.update (Hyst.update mCountdown 2999 []) 3001 []).state
      = .MORPH_CAKE ∧
    (Hyst.update (Hyst.update mCountdown 2999 []) 3001 []).progress = 0 := by
  have e1 : Hyst.update mCountdown 2999 []
      = ⟨.COUNTDOWN, 2999/3000, 0, 0, 0, false, false⟩ := by
    norm_num [Hyst.update, Hyst.timeoutStep, Hyst.audioStep, Hyst.elapsed,
      Hyst.lookupDuration, Hyst.DURATIONS, mCountdown]
  have e2 : Hyst.update (⟨.COUNTDOWN, 2999/3000, 0, 0, 0, false, false⟩
        : Hyst.Machine) 3001 []
      = ⟨.MORPH_CAKE, 0, 3001, 0, 0, false, false⟩ := by
    norm_num [Hyst.update, Hyst.timeoutStep, Hyst.audioStep, Hyst.elapsed,
      Hyst.lookupDuration, Hyst.DURATIONS, Hyst.timedNext]
  rw [e1, e2]
  norm_num

/-- C3 amended: in a timed state with finite duration d > 0, every tick
with elapsed ≤ d keeps the state and sets progress to min(elapsed/d, 1),
which equals exactly 1 iff the tick lands exactly at elapsed = d; progress
is monotone over ticks within the state; and the machine transitions on
the first tick with elapsed > d, resetting progress to 0 (so progress
reaches 1 before the transition only when some tick hits elapsed = d
exactly). -/
theorem hyst_progress_within_timed_state :
    ∀ (m : Hyst.Machine) (d : Nat),
      Hyst.lookupDuration m.state = .fin d → 0 < d →
      (∀ (now : Nat) (frame : List Nat),
          Hyst.elapsed m now ≤ (d : ℤ) →
          (Hyst.update m now frame).state = m.state ∧
          (Hyst.update m now frame).progress
            = min ((Hyst.elapsed m now : ℚ) / (d : ℚ)) 1 ∧
          ((Hyst.update m now frame).progress = 1
            ↔ Hyst.elapsed m now = (d : ℤ))) ∧
      (∀ (now1 now2 : Nat) (f1 f2 : List Nat),
          m.lastStateTime ≤ now1 → now1 ≤ now2 →
          Hyst.elapsed m now2 ≤ (d : ℤ) →
          (Hyst.update m now1 f1).progress
            ≤ (Hyst.update m now2 f2).progress) ∧
      (∀ (now : Nat) (frame : List Nat),
          (d : ℤ) < Hyst.elapsed m now →
          (Hyst.update m now frame).state = Hyst.timedNext m.state ∧
          Hyst.timedNext m.state ≠ m.state ∧
          (Hyst.update m now frame).progress = 0) := by
  intro m d hd hpos
  have hcase := Hyst.timed_state_cases m.state d hd hpos
  have h1 : m.state ≠ .LISTENING := by
    rcases hcase with h | h | h <;> rw [h] <;> decide
  have h2 : m.state ≠ .CANDLES_LIT := by
    rcases hcase with h | h | h <;> rw [h] <;> decide
  have hdQ : (0 : ℚ) < (d : ℚ) := by exact_mod_cast hpos
  have hprogeq : ∀ (now : Nat) (frame : List Nat),
      Hyst.elapsed m now ≤ (d : ℤ) →
      (Hyst.update m now frame).progress
        = min ((Hyst.elapsed m now : ℚ) / (d : ℚ)) 1 := by
    intro now frame he
    unfold Hyst.update
    rw [Hyst.audioStep_progress,
      Hyst.timeoutStep_holds m now d hd (not_lt.mpr he)]
  refine ⟨?_, ?_, ?_⟩
  · intro now frame he
    have hstate : (Hyst.update m now frame).state = m.state := by
      unfold Hyst.update
      rw [Hyst.audioStep_state _ _ _ _ h1 h2,
        Hyst.timeoutStep_holds m now d hd (not_lt.mpr he)]
    refine ⟨hstate, hprogeq now frame he, ?_⟩
    rw [hprogeq now frame he]
    have heQ : ((Hyst.elapsed m now : ℤ) : ℚ) ≤ (d : ℚ) := by
      exact_mod_cast he
    rw [min_eq_left ((div_le_one hdQ).mpr heQ),
      div_eq_one_iff_eq (ne_of_gt hdQ)]
    constructor
    · intro hh
      exact_mod_cast hh
    · intro hh
      exact_mod_cast hh
  · intro now1 now2 f1 f2 hl h12 he2
    have hee : Hyst.elapsed m now1 ≤ Hyst.elapsed m now2 := by
      unfold Hyst.elapsed
      omega
    have he1 : Hyst.elapsed m now1 ≤ (d : ℤ) := le_trans hee he2
    rw [hprogeq now1 f1 he1, hprogeq now2 f2 he2]
    refine min_le_min ?_ le_rfl
    rw [div_le_div_iff_of_pos_right hdQ]
    exact_mod_cast hee
  · intro now frame hlt
    refine ⟨Hyst.update_timeout_fires m now frame d hd hpos hlt,
      Hyst.timedNext_ne m.state hcase, ?_⟩
    unfold Hyst.update
    rw [Hyst.audioStep_progress, Hyst.timeoutStep_fires m now d hd hlt]

/-- Witness for the amended C3 at a concrete COUNTDOWN machine: a tick at
1500 ms keeps the state with progress min(1500/3000, 1) (and progress is
not 1 there since elapsed is not 3000), ticks at 1000 then 2000 ms give
non-decreasing progress, and a tick at 3500 ms transitions with progress
reset to 0. -/
theorem hyst_progress_within_timed_state_witness :
    ((Hyst.update mCountdown 1500 []).state = mCountdown.state ∧
     (Hyst.update mCountdown 1500 []).progress
       = min ((Hyst.elapsed mCountdown 1500 : ℚ) / ((3000 : ℕ) : ℚ)) 1 ∧
     ((Hyst.update mCountdown 1500 []).progress = 1
        ↔ Hyst.elapsed mCountdown 1500 = ((3000 : ℕ) : ℤ))) ∧
    ((Hyst.update mCountdown 1000 []).progress
       ≤ (Hyst.update mCountdown 2000 []).progress) ∧
    ((Hyst.update mCountdown 3500 []).state
       = Hyst.timedNext mCountdown.state ∧
     Hyst.timedNext mCountdown.state ≠ mCountdown.state ∧
     (Hyst.update mCountdown 3500 []).progress = 0) :=
  ⟨(hyst_progress_within_timed_state mCountdown 3000 rfl (by decide)).1
      1500 [] (by decide),
   (hyst_progress_within_timed_state mCountdown 3000 rfl (by decide)).2.1
      1000 2000 [] [] (by decide) (by decide) (by decide),
   (hyst_progress_within_timed_state mCountdown 3000 rfl (by decide)).2.2
      3500 [] (by decide)⟩

/-- C1 (code-bug evidence): with realistic tick timing — ticks 16 ms
apart, machine in LISTENING with a live microphone and the 900 ms cooldown
long expired — ten consecutive loud frames leave the machine in LISTENING
with the counter at 1: because LISTENING is absent from the duration
table, its zero-duration pseudo-timeout zeroes the counter on every tick
before the audio section increments it, so the 6-frame trigger never
fires and no transition to COUNTDOWN ever happens. -/
theorem hyst_listening_trigger_starved :
    (Hyst.runTicks mListening
      [(1000, hitFrame), (1016, hitFrame), (1032, hitFrame),
       (1048, hitFrame), (1064, hitFrame), (1080, hitFrame),
       (1096, hitFrame), (1112, hitFrame), (1128, hitFrame),
       (1144, hitFrame)]).state = .LISTENING ∧
    (Hyst.runTicks mListening
      [(1000, hitFrame), (1016, hitFrame), (1032, hitFrame),
       (1048, hitFrame), (1064, hitFrame), (1080, hitFrame),
       (1096, hitFrame), (1112, hitFrame), (1128, hitFrame),
       (1144, hitFrame)]).blowHitFrames = 1 := by
  constructor <;>
    norm_num [Hyst.runTicks, Hyst.update, Hyst.timeoutStep, Hyst.audioStep,
      Hyst.elapsed, Hyst.lookupDuration, Hyst.DURATIONS, Hyst.timedNext,
      Hyst.isHit, Hyst.lowFreqSum, Hyst.totalAverage, Hyst.lowFreqBins,
      Hyst.blowThreshold, Hyst.hitCounterStep, Hyst.cooldownMs,
      Hyst.requiredFrames, mListening, hitFrame, List.replicate, List.take]

/-- C10: in the `src/App.tsx` variant, with an active microphone a single
frame whose low-frequency mean or total mean exceeds the threshold
immediately transitions LISTENING to COUNTDOWN and CANDLES_LIT to
BLOW_OUT — for every machine value, so with no run-length requirement and
no cooldown (no such state even exists in this variant). -/
theorem simple_single_frame_trigger :
    ∀ (m : Simple.Machine) (now : Nat) (frame : List Nat),
      m.hasAnalyser = true → m.micActive = true →
      (Simple.blowThreshold < Simple.lowFreqSum frame ∨
        Simple.blowThreshold < Simple.totalAverage frame) →
      (m.state = .LISTENING →
        (Simple.update m now frame).state = .COUNTDOWN ∧
        (Simple.update m now frame).lastStateTime = now) ∧
      (m.state = .CANDLES_LIT →
        (Simple.update m now frame).state = .BLOW_OUT ∧
        (Simple.update m now frame).lastStateTime = now) := by
  intro m now frame han hmic hhit
  have hanM : (Simple.timeoutStep m now).hasAnalyser = true := by
    rw [Simple.timeoutStep_keeps_hasAnalyser]; exact han
  have hmicM : (Simple.timeoutStep m now).micActive = true := by
    rw [Simple.timeoutStep_keeps_micActive]; exact hmic
  constructor
  · intro hs
    unfold Simple.update Simple.audioStep
    rw [hs, hanM, hmicM]
    rw [if_pos (show (true && true) = true from rfl), if_pos hhit,
      if_pos (rfl : ExperienceState.LISTENING = ExperienceState.LISTENING)]
    exact ⟨rfl, rfl⟩
  · intro hs
    unfold Simple.update Simple.audioStep
    rw [hs, hanM, hmicM]
    rw [if_pos (show (true && true) = true from rfl), if_pos hhit,
      if_neg (by decide : ¬ ExperienceState.CANDLES_LIT = ExperienceState.LISTENING),
      if_pos (rfl : ExperienceState.CANDLES_LIT = ExperienceState.CANDLES_LIT)]
    exact ⟨rfl, rfl⟩

/-- Witness for C10 at concrete machines and the all-loud frame. -/
theorem simple_single_frame_trigger_witness :
    ((Simple.update sListening 50 hitFrame).state = .COUNTDOWN ∧
     (Simple.update sListening 50 hitFrame).lastStateTime = 50) ∧
    ((Simple.update sCandles 50 hitFrame).state = .BLOW_OUT ∧
     (Simple.update sCandles 50 hitFrame).lastStateTime = 50) :=
  ⟨(simple_single_frame_trigger sListening 50 hitFrame rfl rfl
      (Or.inl Simple.lowFreqSum_hitFrame)).1 rfl,
   (simple_single_frame_trigger sCandles 50 hitFrame rfl rfl
      (Or.inl Simple.lowFreqSum_hitFrame)).2 rfl⟩
